import Mathlib

/-!
Shallow embedding of `src/parse_logs_with_llm.py` (kobzarvs/antivirus).

The Python source is embedded as executable Lean definitions over `List Char`
and `String`.  Python's exception behaviour is made explicit: every operation
that can raise inside a `try` block is modelled as an `Option`-valued function,
and the `except` handlers of the source become `none`-propagation, so each
embedded function is total exactly the way the Python function is total.

Deviations from CPython that are documented rather than modelled (none of them
is reachable from the concrete inputs used in the theorems below):
* string predicates (`str.split()`, `str.strip`, regex `\s`, `\d`) are modelled
  over the ASCII range; Python additionally accepts some non-ASCII Unicode
  whitespace and digits;
* `int(...)` is modelled without PEP 515 underscore separators;
* JSON floating point numbers are kept as their decimal lexeme instead of an
  IEEE-754 value (no claim inspects a float);
* a lone `\uXXXX` surrogate inside a JSON string decodes to `NUL` because a
  Lean `Char` cannot hold a surrogate code point.
-/

/-! ## Python string primitives -/

/-- Whitespace class used by `str.split()`, `str.strip()` and the regex `\s`
(ASCII part). -/
def pyWs (c : Char) : Bool :=
  c = ' ' || c = '\t' || c = '\n' || c = '\r' || c = '\x0b' || c = '\x0c'

/-- Python `str.split(sep)` for a one-character separator: keeps empty
fields, `''.split(sep) == ['']`. -/
def chSplit (sep : Char) : List Char → List (List Char)
  | [] => [[]]
  | c :: rest =>
    if c = sep then [] :: chSplit sep rest
    else
      match chSplit sep rest with
      | [] => [[c]]
      | g :: gs => (c :: g) :: gs

/-- Helper for `pySplitWs`: `cur` is the current word, reversed. -/
def pySplitWsGo (cur : List Char) : List Char → List (List Char)
  | [] => if cur.isEmpty then [] else [cur.reverse]
  | c :: rest =>
    if pyWs c then
      if cur.isEmpty then pySplitWsGo [] rest
      else cur.reverse :: pySplitWsGo [] rest
    else pySplitWsGo (c :: cur) rest

/-- Python `str.split()` with no argument: splits on runs of whitespace and
drops empty fields. -/
def pySplitWs (cs : List Char) : List (List Char) := pySplitWsGo [] cs

/-- Python `str.strip()` (ASCII whitespace). -/
def pyStrip (cs : List Char) : List Char :=
  ((cs.dropWhile pyWs).reverse.dropWhile pyWs).reverse

/-- Python substring test `needle in hay`. -/
def listContains (needle : List Char) : List Char → Bool
  | [] => needle.isEmpty
  | c :: rest => needle.isPrefixOf (c :: rest) || listContains needle rest

/-- Decimal value of an ASCII digit. -/
def digitVal (c : Char) : Nat := c.toNat - '0'.toNat

/-- Nonempty all-digits decimal number (the digit part of Python `int(...)`). -/
def natDigits : List Char → Option Nat
  | [] => none
  | cs => go 0 cs
where
  go (acc : Nat) : List Char → Option Nat
    | [] => some acc
    | c :: rest => if c.isDigit then go (acc * 10 + digitVal c) rest else none

/-- Python `int(str)`: strips surrounding whitespace, accepts an optional
sign, then decimal digits (PEP 515 underscores not modelled); `none` on
`ValueError`. -/
def pyIntOfChars (cs0 : List Char) : Option Int :=
  match pyStrip cs0 with
  | '+' :: ds => (natDigits ds).map Int.ofNat
  | '-' :: ds => (natDigits ds).map (fun n => -(n : Int))
  | ds => (natDigits ds).map Int.ofNat

/-- Fuel-driven digit accumulator for `natToChars`. -/
def natToCharsGo : Nat → Nat → List Char → List Char
  | 0, _, acc => acc
  | fuel + 1, n, acc =>
    if n < 10 then Char.ofNat ('0'.toNat + n) :: acc
    else natToCharsGo fuel (n / 10) (Char.ofNat ('0'.toNat + n % 10) :: acc)

/-- Decimal digits of a `Nat`, most significant first (Python `str(n)`). -/
def natToChars (n : Nat) : List Char := natToCharsGo (n + 1) n []

/-- Python `f"{n:02d}"` for a natural number. -/
def pad2 (n : Nat) : List Char :=
  let ds := natToChars n
  if ds.length < 2 then '0' :: ds else ds

/-- Python `f"{i:02d}"` for an `Int`: the zero padding goes after the sign
and counts toward the total width of 2. -/
def fmt02Int (i : Int) : List Char :=
  if i < 0 then
    let ds := natToChars i.natAbs
    if ds.length + 1 < 2 then '-' :: '0' :: ds else '-' :: ds
  else pad2 i.natAbs

/-! ## `datetime.datetime` values -/

/-- A second-precision `datetime.datetime` value as produced by
`strptime`/`fromisoformat` in the source (microseconds are never produced by
the embedded call sites: the formats parsed stop at seconds). -/
structure DateTime where
  year : Nat
  month : Nat
  day : Nat
  hour : Nat
  minute : Nat
  second : Nat
deriving DecidableEq, Repr

/-- Gregorian leap year (`calendar.isleap`). -/
def isLeapYear (y : Nat) : Bool :=
  y % 4 = 0 && (y % 100 ≠ 0 || y % 400 = 0)

/-- Days in a month of the proleptic Gregorian calendar. -/
def daysInMonth (y m : Nat) : Nat :=
  if m = 2 then (if isLeapYear y then 29 else 28)
  else if m = 4 || m = 6 || m = 9 || m = 11 then 30
  else 31

/-- The validity ranges enforced by the `datetime.datetime` constructor
(`MINYEAR = 1`, `MAXYEAR = 9999`) together with the field regexes of
`_strptime`. -/
def dtValid (y mo d h mi s : Nat) : Bool :=
  1 ≤ y && y ≤ 9999 && 1 ≤ mo && mo ≤ 12 && 1 ≤ d && d ≤ daysInMonth y mo &&
  h ≤ 23 && mi ≤ 59 && s ≤ 59

/-- Validity of a `DateTime` value. -/
def DateTime.valid (t : DateTime) : Bool :=
  dtValid t.year t.month t.day t.hour t.minute t.second

/-! ## `datetime.datetime.strptime(s, "%Y-%m-%d %H:%M:%S")`

CPython's `_strptime` compiles the format to a regex: `%Y` is exactly four
digits, `%m`/`%d`/`%H`/`%M`/`%S` are one or two digits, a whitespace in the
format matches one or more whitespace characters, and the whole string must
be consumed.  The numeric range constraints of the field regexes and of the
`datetime` constructor are checked after the fields are read; because every
field is followed by a non-digit literal or the end of the string this is
extensionally the same as the regex alternations of `_strptime`. -/

/-- Exactly four digits. -/
def parse4Digits : List Char → Option (Nat × List Char)
  | a :: b :: c :: d :: rest =>
    if a.isDigit && b.isDigit && c.isDigit && d.isDigit then
      some (((digitVal a * 10 + digitVal b) * 10 + digitVal c) * 10 + digitVal d, rest)
    else none
  | _ => none

/-- One or two digits, greedy. -/
def parse2Digits : List Char → Option (Nat × List Char)
  | [] => none
  | [a] => if a.isDigit then some (digitVal a, []) else none
  | a :: b :: rest =>
    if a.isDigit then
      if b.isDigit then some (digitVal a * 10 + digitVal b, rest)
      else some (digitVal a, b :: rest)
    else none

/-- A single expected literal character. -/
def expectCh (ch : Char) : List Char → Option (List Char)
  | [] => none
  | c :: rest => if c = ch then some rest else none

/-- One or more whitespace characters (the `\s+` a literal space in a
`strptime` format compiles to). -/
def skipWs1 : List Char → Option (List Char)
  | [] => none
  | c :: rest => if pyWs c then some (rest.dropWhile pyWs) else none

/-- The six numeric fields of `"%Y-%m-%d %H:%M:%S"` and the unconsumed
remainder. -/
def strptimeFields (cs : List Char) : Option (Nat × Nat × Nat × Nat × Nat × Nat × List Char) :=
  match parse4Digits cs with
  | none => none
  | some (y, cs) =>
  match expectCh '-' cs with
  | none => none
  | some cs =>
  match parse2Digits cs with
  | none => none
  | some (mo, cs) =>
  match expectCh '-' cs with
  | none => none
  | some cs =>
  match parse2Digits cs with
  | none => none
  | some (d, cs) =>
  match skipWs1 cs with
  | none => none
  | some cs =>
  match parse2Digits cs with
  | none => none
  | some (h, cs) =>
  match expectCh ':' cs with
  | none => none
  | some cs =>
  match parse2Digits cs with
  | none => none
  | some (mi, cs) =>
  match expectCh ':' cs with
  | none => none
  | some cs =>
  match parse2Digits cs with
  | none => none
  | some (s, cs) => some (y, mo, d, h, mi, s, cs)

/-- `datetime.datetime.strptime(s, "%Y-%m-%d %H:%M:%S")`, `none` on
`ValueError`. -/
def strptime_ymd_hms (str : String) : Option DateTime :=
  match strptimeFields str.toList with
  | none => none
  | some (y, mo, d, h, mi, s, rest) =>
    if rest.isEmpty && dtValid y mo d h mi s then some ⟨y, mo, d, h, mi, s⟩
    else none

theorem strptime_valid {str : String} {t : DateTime}
    (h : strptime_ymd_hms str = some t) : t.valid = true := by
  unfold strptime_ymd_hms at h
  split at h
  · exact Option.noConfusion h
  · rename_i y mo d hh mi s rest heq
    split at h
    · rename_i hcond
      cases h
      simp only [Bool.and_eq_true] at hcond
      exact hcond.2
    · exact Option.noConfusion h

/-! ## The five timestamp parsing strategies
(`src/parse_logs_with_llm.py` lines 93-140; all of them are defined in the
source but never called from `main`). -/

/-- Body of `parse_timestamp_gdata_header` after `line.split('\t')`.  Note
the source tests `len(header_parts) > 2` but indexes `header_parts[3]`; the
`IndexError` raised when the split has exactly three fields is swallowed by
the `except (ValueError, IndexError)` handler, which the `none` branch of
the `get? 3` match models. -/
def gdataHeaderOfParts (header_parts : List (List Char)) : Option DateTime :=
  if header_parts.length > 2 then
    match header_parts.get? 3 with
    | none => none
    | some p3 =>
      if listContains "Virus check".toList p3 then
        match header_parts.get? 2 with
        | none => none
        | some p2 => strptime_ymd_hms (String.mk p2)
      else none
  else none

/-- `parse_timestamp_gdata_header` (source lines 93-101). -/
def parse_timestamp_gdata_header (line : String) : Option DateTime :=
  gdataHeaderOfParts (chSplit '\t' line.toList)

/-- `calendar.month_abbr` positions 1-12. -/
def monthAbbrTable : List (String × Nat) :=
  [("Jan", 1), ("Feb", 2), ("Mar", 3), ("Apr", 4), ("May", 5), ("Jun", 6),
   ("Jul", 7), ("Aug", 8), ("Sep", 9), ("Oct", 10), ("Nov", 11), ("Dec", 12)]

/-- The dict `{name: num for num, name in enumerate(calendar.month_abbr) if num}`
queried with `.get` (so an unknown month name yields `none`, not an error). -/
def month_abbr_to_num (name : List Char) : Option Nat :=
  (monthAbbrTable.find? (fun p => p.1.toList == name)).map (fun p => p.2)

/-- `parse_timestamp_drweb` (source lines 103-115). -/
def parse_timestamp_drweb (line : String) : Option DateTime :=
  match pySplitWs line.toList with
  | date_str :: time_str :: _ =>
    match chSplit '-' date_str with
    | [year, month_name, day] =>
      match month_abbr_to_num month_name with
      | none => none
      | some month =>
        match pyIntOfChars day with
        | none => none
        | some dayInt =>
          strptime_ymd_hms (String.mk
            (year ++ '-' :: pad2 month ++ '-' :: fmt02Int dayInt ++
             ' ' :: (chSplit '.' time_str).headD []))
    | _ => none
  | _ => none

/-- The anchored regex `^(\d{4}-\d{2}-\d{2}T\d{2}:\d{2}:\d{2})` of
`parse_timestamp_mpdetection`: the six numeric fields when the first 19
characters match, `none` otherwise.  `re.match` only constrains a prefix, so
the remainder of the line is ignored. -/
def matchIso19 : List Char → Option (Nat × Nat × Nat × Nat × Nat × Nat)
  | y1 :: y2 :: y3 :: y4 :: '-' :: m1 :: m2 :: '-' :: d1 :: d2 :: 'T' ::
    h1 :: h2 :: ':' :: i1 :: i2 :: ':' :: s1 :: s2 :: _ =>
    if y1.isDigit && y2.isDigit && y3.isDigit && y4.isDigit &&
       m1.isDigit && m2.isDigit && d1.isDigit && d2.isDigit &&
       h1.isDigit && h2.isDigit && i1.isDigit && i2.isDigit &&
       s1.isDigit && s2.isDigit then
      some (((digitVal y1 * 10 + digitVal y2) * 10 + digitVal y3) * 10 + digitVal y4,
            digitVal m1 * 10 + digitVal m2,
            digitVal d1 * 10 + digitVal d2,
            digitVal h1 * 10 + digitVal h2,
            digitVal i1 * 10 + digitVal i2,
            digitVal s1 * 10 + digitVal s2)
    else none
  | _ => none

/-- `parse_timestamp_mpdetection` (source lines 117-123):
`datetime.fromisoformat` on the matched group; its `ValueError` on
out-of-range fields is the `dtValid` test. -/
def parse_timestamp_mpdetection (line : String) : Option DateTime :=
  match matchIso19 line.toList with
  | none => none
  | some (y, mo, d, h, mi, s) =>
    if dtValid y mo d h mi s then some ⟨y, mo, d, h, mi, s⟩ else none

/-- `parse_timestamp_standard` (source lines 125-132). -/
def parse_timestamp_standard (line : String) : Option DateTime :=
  match pySplitWs line.toList with
  | p0 :: p1 :: _ => strptime_ymd_hms (String.mk (p0 ++ ' ' :: p1))
  | _ => none

/-- The tail regex `(\d{4}-\d{2}-\d{2}\s\d{2}:\d{2}:\d{2})$` of
`parse_timestamp_db_dump`: the matched 19-character group.  In Python `$`
matches at the end of the string or just before one trailing newline, and a
digit never matches that newline, so the group is the last 19 characters of
the line with at most one final `'\n'` removed. -/
def matchTail19 (cs : List Char) : Option (List Char) :=
  let core := if cs.getLast? = some '\n' then cs.dropLast else cs
  if core.length < 19 then none
  else
    let tail := core.drop (core.length - 19)
    match tail with
    | [y1, y2, y3, y4, c1, m1, m2, c2, d1, d2, w, h1, h2, c3, i1, i2, c4, s1, s2] =>
      if y1.isDigit && y2.isDigit && y3.isDigit && y4.isDigit &&
         c1 = '-' && m1.isDigit && m2.isDigit && c2 = '-' &&
         d1.isDigit && d2.isDigit && pyWs w &&
         h1.isDigit && h2.isDigit && c3 = ':' && i1.isDigit && i2.isDigit &&
         c4 = ':' && s1.isDigit && s2.isDigit then some tail
      else none
    | _ => none

/-- `parse_timestamp_db_dump` (source lines 134-140). -/
def parse_timestamp_db_dump (line : String) : Option DateTime :=
  match matchTail19 line.toList with
  | none => none
  | some group => strptime_ymd_hms (String.mk group)

/-! ## Totality / validity of the strategies -/

theorem parse_timestamp_gdata_header_valid {line : String} {t : DateTime}
    (h : parse_timestamp_gdata_header line = some t) : t.valid = true := by
  unfold parse_timestamp_gdata_header gdataHeaderOfParts at h
  repeat' split at h
  all_goals first
  | exact Option.noConfusion h
  | exact strptime_valid h

theorem parse_timestamp_drweb_valid {line : String} {t : DateTime}
    (h : parse_timestamp_drweb line = some t) : t.valid = true := by
  unfold parse_timestamp_drweb at h
  repeat' split at h
  all_goals first
  | exact Option.noConfusion h
  | exact strptime_valid h

theorem parse_timestamp_mpdetection_valid {line : String} {t : DateTime}
    (h : parse_timestamp_mpdetection line = some t) : t.valid = true := by
  unfold parse_timestamp_mpdetection at h
  split at h
  · exact Option.noConfusion h
  · split at h
    · rename_i hc
      cases h
      exact hc
    · exact Option.noConfusion h

theorem parse_timestamp_standard_valid {line : String} {t : DateTime}
    (h : parse_timestamp_standard line = some t) : t.valid = true := by
  unfold parse_timestamp_standard at h
  repeat' split at h
  all_goals first
  | exact Option.noConfusion h
  | exact strptime_valid h

theorem parse_timestamp_db_dump_valid {line : String} {t : DateTime}
    (h : parse_timestamp_db_dump line = some t) : t.valid = true := by
  unfold parse_timestamp_db_dump at h
  repeat' split at h
  all_goals first
  | exact Option.noConfusion h
  | exact strptime_valid h

/-! ## Configuration constants (source lines 12-15) -/

def OLLAMA_URL : String := "http://localhost:11434/api/generate"

def LMSTUDIO_URL : String := "http://localhost:1234/v1/chat/completions"

def MAX_CHARS_PER_CHUNK : Nat := 5000

def LLM_TIMEOUT : Nat := 300

/-! ## The chunker (`create_chunks`, source lines 170-183) -/

/-- The loop of `create_chunks` at the granularity of line lists:
`cur`/`curLen` are `current_chunk`/`current_length`; a chunk is flushed
before a line that would push `current_length` past the maximum, and the
final nonempty chunk is flushed after the loop. -/
def ccGo : List String → List String → Nat → List (List String)
  | [], cur, _ => if cur.isEmpty then [] else [cur]
  | line :: rest, cur, curLen =>
    if curLen + line.length > MAX_CHARS_PER_CHUNK then
      cur :: ccGo rest [line] line.length
    else ccGo rest (cur ++ [line]) (curLen + line.length)

/-- The partition of the input lines into chunks, before joining. -/
def create_chunks_parts (lines : List String) : List (List String) :=
  ccGo lines [] 0

/-- Python `sep.join(l)`. -/
def pyJoin (sep : String) : List String → String
  | [] => ""
  | [last] => last
  | s :: next :: more => s ++ sep ++ pyJoin sep (next :: more)

/-- `create_chunks` (source lines 170-183): each chunk is the
`"\n".join` of its lines. -/
def create_chunks (lines : List String) : List String :=
  (create_chunks_parts lines).map (pyJoin "\n")

/-- Sum of the Python `len` of each line. -/
def sumLen (l : List String) : Nat := (l.map String.length).sum

theorem ccGo_flatten : ∀ (rest cur : List String) (curLen : Nat),
    (ccGo rest cur curLen).flatten = cur ++ rest
  | [], cur, curLen => by
    unfold ccGo
    by_cases hc : cur.isEmpty
    · simp [hc, List.isEmpty_iff.mp hc]
    · simp [hc]
  | line :: rest, cur, curLen => by
    unfold ccGo
    by_cases hb : curLen + line.length > MAX_CHARS_PER_CHUNK
    · simp only [hb, if_true, List.flatten_cons, ccGo_flatten rest [line] line.length]
      simp
    · simp only [hb, if_false, ccGo_flatten rest (cur ++ [line]) (curLen + line.length)]
      simp

/-- Every line appears in exactly one chunk, in the original order. -/
theorem create_chunks_parts_flatten (lines : List String) :
    (create_chunks_parts lines).flatten = lines := by
  simpa using ccGo_flatten lines [] 0

theorem ccGo_sum_bound : ∀ (rest cur : List String) (curLen : Nat),
    curLen = sumLen cur →
    (2 ≤ cur.length → curLen ≤ MAX_CHARS_PER_CHUNK) →
    ∀ c ∈ ccGo rest cur curLen, 2 ≤ c.length → sumLen c ≤ MAX_CHARS_PER_CHUNK
  | [], cur, curLen => by
    intro hlen hbound c hc h2
    unfold ccGo at hc
    by_cases he : cur.isEmpty
    · simp [he] at hc
    · simp [he] at hc
      subst hc
      exact hlen ▸ hbound h2
  | line :: rest, cur, curLen => by
    intro hlen hbound c hc h2
    unfold ccGo at hc
    by_cases hb : curLen + line.length > MAX_CHARS_PER_CHUNK
    · simp only [hb, if_true, List.mem_cons] at hc
      rcases hc with rfl | hc
      · exact hlen ▸ hbound h2
      · refine ccGo_sum_bound rest [line] line.length ?_ ?_ c hc h2
        · simp [sumLen]
        · intro habs; simp at habs
    · simp only [hb, if_false] at hc
      refine ccGo_sum_bound rest (cur ++ [line]) (curLen + line.length) ?_ ?_ c hc h2
      · simp [sumLen, hlen]
      · intro _; omega

/-- A chunk holding at least two lines has line lengths summing to at most
the configured maximum. -/
theorem create_chunks_parts_sum_bound (lines : List String) :
    ∀ c ∈ create_chunks_parts lines, 2 ≤ c.length →
      sumLen c ≤ MAX_CHARS_PER_CHUNK := by
  refine ccGo_sum_bound lines [] 0 ?_ ?_
  · simp [sumLen]
  · intro habs; simp at habs

theorem pyJoin_newline_length : ∀ (l : List String), l ≠ [] →
    (pyJoin "\n" l).length = sumLen l + (l.length - 1)
  | [x], _ => by simp [pyJoin, sumLen]
  | x :: y :: rest, _ => by
    have ih := pyJoin_newline_length (y :: rest) (by simp)
    simp only [pyJoin, String.length_append, ih, sumLen, List.map_cons, List.sum_cons,
      List.length_cons]
    have h1 : ("\n" : String).length = 1 := rfl
    rw [h1]
    omega

/-! ## JSON values and `json.loads`

A faithful model of CPython's pure-python `json` scanner for the features the
source exercises: strict strings, `0|[1-9]\d*` integer parts, fraction and
exponent lexemes kept verbatim as floats, the `NaN`/`Infinity`/`-Infinity`
extensions, objects with last-wins duplicate keys at the first occurrence's
position, and `Extra data` rejection of trailing text. -/

inductive PyJson where
  | jnull
  | jbool (b : Bool)
  | jint (n : Int)
  | jfloat (lexeme : String)
  | jstr (s : String)
  | jarr (elems : List PyJson)
  | jobj (pairs : List (String × PyJson))

/-- JSON inter-token whitespace (`json.decoder.WHITESPACE`). -/
def jws (c : Char) : Bool := c = ' ' || c = '\t' || c = '\n' || c = '\r'

/-- Skip JSON whitespace. -/
def skipJWs (cs : List Char) : List Char := cs.dropWhile jws

/-- Hexadecimal digit value (code-point arithmetic: `0`-`9` are 48-57,
`a`-`f` are 97-102, `A`-`F` are 65-70). -/
def hexVal (c : Char) : Option Nat :=
  let n := c.toNat
  if 48 ≤ n && n ≤ 57 then some (n - 48)
  else if 97 ≤ n && n ≤ 102 then some (n - 87)
  else if 65 ≤ n && n ≤ 70 then some (n - 55)
  else none

/-- Exactly four hexadecimal digits (the `XXXX` of `\uXXXX`). -/
def parseHex4 : List Char → Option (Nat × List Char)
  | a :: b :: c :: d :: rest =>
    match hexVal a, hexVal b, hexVal c, hexVal d with
    | some x, some y, some z, some w => some (((x * 16 + y) * 16 + z) * 16 + w, rest)
    | _, _, _, _ => none
  | _ => none

/-- `json.decoder.py_scanstring` after the opening quote, strict mode: the
decoded characters and the remainder after the closing quote.  A lone
surrogate (legal for Python, unrepresentable in a Lean `Char`) becomes
`NUL` via the total `Char.ofNat`. -/
def jstrChars : Nat → List Char → Option (List Char × List Char)
  | 0, _ => none
  | _ + 1, [] => none
  | fuel + 1, c :: rest =>
    if c = '"' then some ([], rest)
    else if c = '\\' then
      match rest with
      | [] => none
      | e :: rest2 =>
        let simple : Option Char :=
          if e = '"' then some '"' else if e = '\\' then some '\\'
          else if e = '/' then some '/' else if e = 'b' then some '\x08'
          else if e = 'f' then some '\x0c' else if e = 'n' then some '\n'
          else if e = 'r' then some '\r' else if e = 't' then some '\t' else none
        match simple with
        | some ch => (jstrChars fuel rest2).map (fun p => (ch :: p.1, p.2))
        | none =>
          if e = 'u' then
            match parseHex4 rest2 with
            | none => none
            | some (n, rest3) =>
              if 0xd800 ≤ n && n ≤ 0xdbff then
                match rest3 with
                | '\\' :: 'u' :: rest4 =>
                  match parseHex4 rest4 with
                  | none => none
                  | some (m, rest5) =>
                    if 0xdc00 ≤ m && m ≤ 0xdfff then
                      (jstrChars fuel rest5).map (fun p =>
                        (Char.ofNat (0x10000 + (n - 0xd800) * 0x400 + (m - 0xdc00)) :: p.1, p.2))
                    else (jstrChars fuel rest3).map (fun p => (Char.ofNat n :: p.1, p.2))
                | _ => (jstrChars fuel rest3).map (fun p => (Char.ofNat n :: p.1, p.2))
              else (jstrChars fuel rest3).map (fun p => (Char.ofNat n :: p.1, p.2))
          else none
    else if c.toNat < 0x20 then none
    else (jstrChars fuel rest).map (fun p => (c :: p.1, p.2))

/-- `json.scanner.NUMBER_RE`: `(-?(?:0|[1-9]\d*))(\.\d+)?([eE][-+]?\d+)?`.
Pure integers become `PyJson.jint`; anything with a fraction or exponent keeps
its decimal lexeme as `PyJson.jfloat`. -/
def parseJNum (cs : List Char) : Option (PyJson × List Char) :=
  let negRes : List Char × List Char :=
    match cs with
    | '-' :: r => (['-'], r)
    | _ => ([], cs)
  let negChars := negRes.1
  let cs1 := negRes.2
  match cs1 with
  | [] => none
  | c :: _ =>
    if !c.isDigit then none
    else
      let ipRes : List Char × List Char :=
        if c = '0' then (['0'], cs1.tail) else cs1.span Char.isDigit
      let ip := ipRes.1
      let cs2 := ipRes.2
      let fracRes : List Char × List Char :=
        match cs2 with
        | '.' :: r =>
          let ds := r.takeWhile Char.isDigit
          if ds.isEmpty then ([], cs2) else ('.' :: ds, r.dropWhile Char.isDigit)
        | _ => ([], cs2)
      let fracChars := fracRes.1
      let cs3 := fracRes.2
      let expRes : List Char × List Char :=
        match cs3 with
        | e :: '+' :: r2 =>
          if e = 'e' || e = 'E' then
            let ds := r2.takeWhile Char.isDigit
            if ds.isEmpty then ([], cs3) else (e :: '+' :: ds, r2.dropWhile Char.isDigit)
          else ([], cs3)
        | e :: '-' :: r2 =>
          if e = 'e' || e = 'E' then
            let ds := r2.takeWhile Char.isDigit
            if ds.isEmpty then ([], cs3) else (e :: '-' :: ds, r2.dropWhile Char.isDigit)
          else ([], cs3)
        | e :: r =>
          if e = 'e' || e = 'E' then
            let ds := r.takeWhile Char.isDigit
            if ds.isEmpty then ([], cs3) else (e :: ds, r.dropWhile Char.isDigit)
          else ([], cs3)
        | [] => ([], cs3)
      let expChars := expRes.1
      let cs4 := expRes.2
      if fracChars.isEmpty && expChars.isEmpty then
        match natDigits ip with
        | some n => some (PyJson.jint (if negChars.isEmpty then (n : Int) else -(n : Int)), cs2)
        | none => none
      else some (PyJson.jfloat (String.mk (negChars ++ ip ++ fracChars ++ expChars)), cs4)

/-- Insertion into a Python dict literal: a duplicate key keeps its original
position and takes the new value. -/
def dictInsert (k : String) (v : PyJson) : List (String × PyJson) → List (String × PyJson)
  | [] => [(k, v)]
  | (k0, v0) :: rest => if k0 = k then (k0, v) :: rest else (k0, v0) :: dictInsert k v rest

/-- Parser state: a plain JSON value, the tail of an array after at least one
element, the next `"key": value` pair of an object, or the delimiter after an
object pair. -/
inductive JMode where
  | value
  | arrRest (acc : List PyJson)
  | objPair (acc : List (String × PyJson))
  | objRest (acc : List (String × PyJson))

/-- The recursive core of `json.scanner.py_make_scanner`, driven by a fuel
that the top-level caller sizes to the input (every recursive call consumes
at least one input character, so the fuel is never exhausted from
`json_loads`). -/
def jparse : Nat → JMode → List Char → Option (PyJson × List Char)
  | 0, _, _ => none
  | fuel + 1, .value, cs =>
    match cs with
    | [] => none
    | '"' :: rest => (jstrChars (rest.length + 1) rest).map (fun p => (PyJson.jstr (String.mk p.1), p.2))
    | '[' :: rest =>
      match skipJWs rest with
      | ']' :: r => some (PyJson.jarr [], r)
      | cs1 =>
        match jparse fuel .value cs1 with
        | none => none
        | some (v, r) => jparse fuel (.arrRest [v]) r
    | '{' :: rest =>
      match skipJWs rest with
      | '}' :: r => some (PyJson.jobj [], r)
      | cs1 => jparse fuel (.objPair []) cs1
    | cs =>
      if "null".toList.isPrefixOf cs then some (PyJson.jnull, cs.drop 4)
      else if "true".toList.isPrefixOf cs then some (PyJson.jbool true, cs.drop 4)
      else if "false".toList.isPrefixOf cs then some (PyJson.jbool false, cs.drop 5)
      else if "NaN".toList.isPrefixOf cs then some (PyJson.jfloat "NaN", cs.drop 3)
      else if "Infinity".toList.isPrefixOf cs then some (PyJson.jfloat "Infinity", cs.drop 8)
      else if "-Infinity".toList.isPrefixOf cs then some (PyJson.jfloat "-Infinity", cs.drop 9)
      else parseJNum cs
  | fuel + 1, .arrRest acc, cs =>
    match skipJWs cs with
    | ',' :: r =>
      match jparse fuel .value (skipJWs r) with
      | none => none
      | some (v, r2) => jparse fuel (.arrRest (acc ++ [v])) r2
    | ']' :: r => some (PyJson.jarr acc, r)
    | _ => none
  | fuel + 1, .objPair acc, cs =>
    match cs with
    | '"' :: r =>
      match jstrChars (r.length + 1) r with
      | none => none
      | some (key, r2) =>
        match skipJWs r2 with
        | ':' :: r3 =>
          match jparse fuel .value (skipJWs r3) with
          | none => none
          | some (v, r4) => jparse fuel (.objRest (dictInsert (String.mk key) v acc)) r4
        | _ => none
    | _ => none
  | fuel + 1, .objRest acc, cs =>
    match skipJWs cs with
    | ',' :: r => jparse fuel (.objPair acc) (skipJWs r)
    | '}' :: r => some (PyJson.jobj acc, r)
    | _ => none

/-- `json.loads`: skip leading whitespace, parse one value, allow only
trailing whitespace (`Extra data` otherwise); `none` models
`json.JSONDecodeError`. -/
def json_loads (s : String) : Option PyJson :=
  let cs := skipJWs s.toList
  match jparse (cs.length + 1) .value cs with
  | none => none
  | some (v, rest) => if (skipJWs rest).isEmpty then some v else none

/-! ## The response decoder (`parse_llm_response`, source lines 206-220) -/

/-- Split at the first occurrence of `needle`: the part before it and the
part after it. -/
def findSub (needle : List Char) : List Char → Option (List Char × List Char)
  | [] => if needle.isEmpty then some ([], []) else none
  | c :: rest =>
    if needle.isPrefixOf (c :: rest) then some ([], (c :: rest).drop needle.length)
    else (findSub needle rest).map (fun p => (c :: p.1, p.2))

/-- `re.sub(r'<think>.*?</think>', '', text, flags=re.DOTALL)`: the lazy body
makes each match run from a `<think>` to the nearest following `</think>`;
`re.sub` removes the non-overlapping matches left to right.  A `<think>`
with no `</think>` after it matches nothing (and then no later `<think>`
can match either). -/
def subThinkGo : Nat → List Char → List Char
  | 0, cs => cs
  | fuel + 1, cs =>
    match findSub "<think>".toList cs with
    | none => cs
    | some (before, afterOpen) =>
      match findSub "</think>".toList afterOpen with
      | none => cs
      | some (_, afterClose) => before ++ subThinkGo fuel afterClose

/-- The `<think>` block removal applied to a whole string. -/
def subThink (cs : List Char) : List Char := subThinkGo (cs.length + 1) cs

/-- The `\}\s*\]` continuation of `re.search(r'\[\s*\{.*?\}\s*\]', ...)`:
finds the shortest extension of the lazy `.*?` ending in `}` whitespace `]`;
returns the consumed characters (from `}` to `]` inclusive) appended after
the lazily consumed ones, with the remainder. -/
def tryCloseAt : List Char → Option (List Char × List Char)
  | [] => none
  | c :: rest =>
    if c = '}' then
      match rest.dropWhile pyWs with
      | ']' :: r3 => some ('}' :: rest.takeWhile pyWs ++ [']'], r3)
      | _ => (tryCloseAt rest).map (fun p => (c :: p.1, p.2))
    else (tryCloseAt rest).map (fun p => (c :: p.1, p.2))

/-- `re.search(r'\[\s*\{.*?\}\s*\]', content, re.DOTALL)`: the leftmost
match (group 0), scanning start positions left to right. -/
def searchJsonArr : List Char → Option (List Char)
  | [] => none
  | c :: rest =>
    if c = '[' then
      match rest.dropWhile pyWs with
      | '{' :: r3 =>
        match tryCloseAt r3 with
        | some (content, _) => some ('[' :: rest.takeWhile pyWs ++ '{' :: content)
        | none => searchJsonArr rest
      | _ => searchJsonArr rest
    else searchJsonArr rest

/-- The warning `parse_llm_response` prints to the error stream when every
strategy fails (`response_text[:500]` is the 500-character preview). -/
def llmWarning (response_text : String) : String :=
  "Warning: Could not parse LLM response as JSON. Response: " ++
    String.mk (response_text.toList.take 500) ++ "..."

/-- `parse_llm_response` (source lines 206-220): the decoded JSON value
(`PyJson.jarr []` when every strategy fails) paired with the warning emitted to
the error stream in that case.  The strategies, in order: parse the raw
text; strip `<think>` blocks and parse the stripped text; regex-extract the
first `[{...}]` span and parse it. -/
def parse_llm_response (response_text : String) : PyJson × Option String :=
  match json_loads response_text with
  | some v => (v, none)
  | none =>
    let content := subThink response_text.toList
    match json_loads (String.mk (pyStrip content)) with
    | some v => (v, none)
    | none =>
      match searchJsonArr content with
      | some grp =>
        match json_loads (String.mk grp) with
        | some v => (v, none)
        | none => (PyJson.jarr [], some (llmWarning response_text))
      | none => (PyJson.jarr [], some (llmWarning response_text))

/-! ## The backend request model (`call_llm`, source lines 185-204) -/

/-- `SYSTEM_PROMPT` (source lines 17-89, a raw triple-quoted string). -/
def SYSTEM_PROMPT : String :=
  "### ROLE ###\n" ++
  "You are an automated data extraction bot specialized in cybersecurity.\n" ++
  "\n" ++
  "### TASK ###\n" ++
  "Your mission is to parse raw antivirus log entries and extract only the malware detection events.\n" ++
  "\n" ++
  "### INSTRUCTIONS ###\n" ++
  "1.  **Identify Detection Events:** Scan the logs for entries indicating a threat. Keywords to look for include **detected**, **quarantined**, **deleted**, **found**, **threat**, and **\"registered virus component\"**.\n" ++
  "2.  **Extract Key Data:** For each detection event, you must extract two pieces of information:\n" ++
  "    *   The malware signature.\n" ++
  "    *   The precise timestamp of the event.\n" ++
  "3.  **One Event Per Line:** Treat each line as a separate potential event. A single line can contain at most one malware signature.\n" ++
  "4.  **Handle Different Log Formats:**\n" ++
  "    *   **Per-Line Timestamps:** Most logs have a timestamp on every line. Use that line's timestamp for the detection.\n" ++
  "    *   **Global Timestamps:** Some logs have a single \"Start time:\" or a timestamp in the header line. You MUST use this single timestamp for ALL subsequent detections found in that log block.\n" ++
  "    *   **Columnar Data:** If the log is structured in columns and one column is named `threat`, you MUST extract the value from that column as the signature.\n" ++
  "5.  **Ignore Non-Detection Events:** You MUST ignore all routine operational messages.\n" ++
  "\n" ++
  "### LOG FORMAT EXAMPLES ###\n" ++
  "**Dr.Web format:**\n" ++
  "```\n" ++
  "2025-Jul-01 18:47:24.322968 [ 4300] [INF] [LOG] Starting service...\n" ++
  "2025-Jul-01 18:47:24.465171 [ 5656] [INF] [service] [service_main] !Set SERVICE_RUNNING successfully...Start\n" ++
  "```\n" ++
  "\n" ++
  "**Microsoft Defender format:**\n" ++
  "```\n" ++
  "2025-06-30T16:46:39.281 DETECTION Virus:DOS/EICAR_Test_File file:C:\\Users\\Пользователь\\Downloads\\eicar.com.txt\n" ++
  "2025-06-30T16:48:31.855 DETECTION Virus:DOS/EICAR_Test_File file:C:\\Users\\Пользователь\\Downloads\\eicar.com.txt\n" ++
  "```\n" ++
  "\n" ++
  "**Columnar format (database dump) first chunk:**\n" ++
  "```\n" ++
  "| quarId                               | path                                                                                                                                                                                                                   | threat                        |   status |   size |   quartime |\n" ++
  "|:-------------------------------------|:-----------------------------------------------------------------------------------------------------------------------------------------------------------------------------------------------------------------------|:------------------------------|---------:|-------:|-----------:|\n" ++
  "| 3f4bf7b4-d635-4c6c-917e-fa2735aac905 | \\\\?\\D:\\DISTRIB\\WinRAR v5.20 Beta 2\\Keygen\\Keygen.exe                                                                                                                                                                   | Application.KeyGen.GO         |        3 | 104960 | 1751403195 |\n" ++
  "| d1727ba0-4712-4961-b9fd-eaf925ccbc73 | hklm\\software\\wow6432node\\microsoft\\internet explorer\\main\\default_search_url                                                                                                                                          |                               |        3 |    338 | 1751403196 |\n" ++
  "| 963e4e68-acbb-49c1-8575-3f055192a648 | <System>=>HKEY_USERS\\.DEFAULT\\SOFTWARE\\CLASSES\\LOCAL SETTINGS\\MRTCACHE\\C:%5CPROGRAM FILES%5CWINDOWSAPPS%5CMICROSOFT.STOREPURCHASEAPP_11811.1001.18.0_X64__8WEKYB3D8BBWE%5CRESOURCES.PRI\\1D5AD0BFA5DAB5A\\D0332875\\@\x7bC:\\P|                               |        1 |    156 | 1751403218 |\n" ++
  "| b7ee48a6-0c13-441c-bed3-815ca63c1a6a | \\\\?\\C:\\Users\\Пользователь\\Downloads\\eicar.com.txt                                                                                                                                                                      | EICAR-Test-File (not a virus) |        3 |     68 | 1751406485 |\n" ++
  "```\n" ++
  "\n" ++
  "**Columnar format (database dump) other chunks:**\n" ++
  "```\n" ++
  "| 3f4bf7b4-d635-4c6c-917e-fa2735aac905 | \\\\?\\D:\\DISTRIB\\WinRAR v5.20 Beta 2\\Keygen\\Keygen.exe                                                                                                                                                                   | Application.KeyGen.GO         |        3 | 104960 | 1751403195 |\n" ++
  "| d1727ba0-4712-4961-b9fd-eaf925ccbc73 | hklm\\software\\wow6432node\\microsoft\\internet explorer\\main\\default_search_url                                                                                                                                          |                               |        3 |    338 | 1751403196 |\n" ++
  "| 963e4e68-acbb-49c1-8575-3f055192a648 | <System>=>HKEY_USERS\\.DEFAULT\\SOFTWARE\\CLASSES\\LOCAL SETTINGS\\MRTCACHE\\C:%5CPROGRAM FILES%5CWINDOWSAPPS%5CMICROSOFT.STOREPURCHASEAPP_11811.1001.18.0_X64__8WEKYB3D8BBWE%5CRESOURCES.PRI\\1D5AD0BFA5DAB5A\\D0332875\\@\x7bC:\\P|                               |        1 |    156 | 1751403218 |\n" ++
  "| b7ee48a6-0c13-441c-bed3-815ca63c1a6a | \\\\?\\C:\\Users\\Пользователь\\Downloads\\eicar.com.txt                                                                                                                                                                      | EICAR-Test-File (not a virus) |        3 |     68 | 1751406485 |\n" ++
  "```\n" ++
  "\n" ++
  "**G DATA format 1:**\n" ++
  "```\n" ++
  "Start time: 2025-07-01 09:15:00\n" ++
  "Virus found: Win32.Trojan.Agent\n" ++
  "File: C:\\Temp\\suspicious.exe\n" ++
  "```\n" ++
  "\n" ++
  "**G DATA format 2:**\n" ++
  "```\n" ++
  "04\t0000000002\t2025-07-01 17:20:40\tVirus check\t\t3\n" ++
  "\n" ++
  "64\t0\t0\tObject: eicar_com.zip=>eicar.com\n" ++
  "64\t0\t0\t\tIn archive: C:\\Users\\Пользователь\\Downloads\\eicarcom2.zip\n" ++
  "64\t0\t0\t\tStatus: Virus detected\n" ++
  "64\t6\t0\t\tVirus: EICAR-Test-File (not a virus)\n" ++
  "```\n" ++
  "\n" ++
  "### OUTPUT FORMAT ###\n" ++
  "- Your output MUST be a valid JSON array.\n" ++
  "- Each object in the array represents a single detection and MUST contain exactly two keys: `signature` and `timestamp`.\n" ++
  "- **signature**: Provide the clean name of the malware. You MUST strip all prefixes, such as `Virus:`, `Malware:`, `Threat:`, `Name=`, etc.\n" ++
  "- **timestamp**: Format the event time strictly as `YYYY-MM-DD HH:MM:SS`.\n" ++
  "- If no detection events are found, you MUST return an empty array: `[]`.\n" ++
  ""

/-- The `CONTEXT` string built inside `call_llm`: the system prompt plus the
date-range postscript interpolating `start_date` and `end_date`. -/
def make_context (start_date end_date : String) : String :=
  SYSTEM_PROMPT ++ "\n    ### Filter Results by date range\n    - from " ++ start_date ++
    "\n    - to " ++ end_date ++ "\n    "

/-- The HTTP POST issued by `call_llm`: target URL, JSON payload fields in
source order (`model`, `messages`, `stream`, `temperature` — the latter kept
as its decimal lexeme), and the transport timeout. -/
structure Request where
  url : String
  model : String
  messages : List (String × String)
  stream : Bool
  temperature : String
  timeout : Nat
deriving DecidableEq

/-- The request `call_llm` posts: always to `LMSTUDIO_URL`, whatever
provider was selected on the command line. -/
def call_llm_request (model prompt start_date end_date : String) (timeout : Nat) : Request :=
  { url := LMSTUDIO_URL
    model := model
    messages := [("system", make_context start_date end_date), ("user", prompt)]
    stream := false
    temperature := "0.1"
    timeout := timeout }

/-- A transport failure of `requests.post`/`raise_for_status`:
`httpError` is an HTTP status error (non-2xx), `reqError` any other
`requests.exceptions.RequestException` (timeout, connection refused, ...).
The `msg` is the exception's display text. -/
inductive TransportErr where
  | httpError (status : Nat) (msg : String)
  | reqError (msg : String)
deriving DecidableEq

/-- The display text `f"{e}"` of a transport failure. -/
def TransportErr.text : TransportErr → String
  | .httpError _ m => m
  | .reqError m => m

/-- One observable event of a run.  `stdoutJson results` models
`print(json.dumps(final_results, indent=2, ensure_ascii=False))` — the
payload is kept structured rather than re-serialised; `stdoutLine` and
`stderrLine` are plain `print`s to the respective stream; `httpPost` records
the request sent by `requests.post`. -/
inductive Ev where
  | stdoutJson (results : List PyJson)
  | stdoutLine (s : String)
  | stderrLine (s : String)
  | httpPost (req : Request)

/-- A backend behaviour: what `requests.post` plus the
`choices[0].message.content` extraction yields for a request — either the
content text or a transport failure. -/
def Backend : Type := Request → Except TransportErr String

/-- `call_llm` (source lines 185-204): posts the request; on success decodes
the content with `parse_llm_response` (emitting its warning, if any, to the
error stream); on an HTTP 400 error prints the LM Studio hint and re-raises;
any transport failure is re-raised to the caller. -/
def call_llm (backend : Backend) (model prompt start_date end_date : String)
    (timeout : Nat) : List Ev × Except TransportErr PyJson :=
  match backend (call_llm_request model prompt start_date end_date timeout) with
  | .ok content =>
    match parse_llm_response content with
    | (v, some w) =>
      ([.httpPost (call_llm_request model prompt start_date end_date timeout),
        .stderrLine w], .ok v)
    | (v, none) =>
      ([.httpPost (call_llm_request model prompt start_date end_date timeout)], .ok v)
  | .error e =>
    match e with
    | .httpError 400 m =>
      ([.httpPost (call_llm_request model prompt start_date end_date timeout),
        .stderrLine ("Error: 400 Bad Request. This often means the model '" ++ model ++
          "' is not loaded or available in LM Studio.")], .error (.httpError 400 m))
    | e => ([.httpPost (call_llm_request model prompt start_date end_date timeout)], .error e)

/-! ## The per-file loop of `main` (source lines 233-251) -/

/-- The chunk loop (source lines 240-248): `i` is the 0-based chunk index,
`total` the chunk count.  Per chunk: the "Querying" progress line, the
backend call, then either the accumulated contribution (only when the
decoded result is a nonempty list) or the per-chunk error line, and the run
continues with the next chunk. -/
def chunk_loop (backend : Backend) (model start_date end_date : String) :
    List String → Nat → Nat → List Ev × List PyJson
  | [], _, _ => ([], [])
  | chunk :: rest, i, total =>
    match call_llm backend model chunk start_date end_date LLM_TIMEOUT with
    | (cevs, .ok v) =>
      (Ev.stderrLine ("Querying LLM for chunk " ++ toString (i + 1) ++ "/" ++
         toString total ++ "...") :: cevs ++
         (chunk_loop backend model start_date end_date rest (i + 1) total).1,
       (match v with
        | PyJson.jarr l => if l.isEmpty then [] else l
        | _ => []) ++
         (chunk_loop backend model start_date end_date rest (i + 1) total).2)
    | (cevs, .error e) =>
      (Ev.stderrLine ("Querying LLM for chunk " ++ toString (i + 1) ++ "/" ++
         toString total ++ "...") :: cevs ++
         Ev.stderrLine ("Error calling LLM for chunk " ++ toString (i + 1) ++ ": " ++ e.text) ::
         (chunk_loop backend model start_date end_date rest (i + 1) total).1,
       (chunk_loop backend model start_date end_date rest (i + 1) total).2)

/-- One iteration of the `for log_path in log_files` loop of `main` (source
lines 233-251), given the decoded lines of the file: progress narration to
the error stream, the chunk loop, then — still inside the loop — the JSON
dump of this file's accumulated results and the `Found:` summary, both
printed to standard output. -/
def process_file (backend : Backend) (model start_date end_date path : String)
    (lines : List String) : List Ev :=
  let chunks := create_chunks lines
  let r := chunk_loop backend model start_date end_date chunks 0 chunks.length
  Ev.stderrLine ("Filtering file: " ++ path) ::
  Ev.stderrLine ("Split logs into " ++ toString chunks.length ++ " chunks for processing.") ::
  r.1 ++
  [Ev.stdoutJson r.2,
   Ev.stdoutLine ("Found: " ++ toString r.2.length ++ " records")]

/-- The parsed command-line arguments of `main` (source lines 223-229);
`end_` is the `--end` flag. -/
structure Args where
  log : String
  start : String
  end_ : String
  model : String
  provider : String
deriving DecidableEq

/-- The whole per-file loop of `main` over the resolved files (path and
decoded lines), producing the run's event trace.  `args.provider` is parsed
but never consulted. -/
def main_run (backend : Backend) (args : Args) (files : List (String × List String)) :
    List Ev :=
  (files.map (fun f => process_file backend args.model args.start args.end_ f.1 f.2)).flatten

/-! ## The encoding resolver (`get_log_lines`, source lines 144-152) -/

/-- The candidate text encodings, in the order the source tries them. -/
inductive Encoding where
  | utf8
  | utf16
  | latin1
  | cp1251
deriving DecidableEq

/-- `encodings = ['utf-8', 'utf-16', 'latin1', 'cp1251']`. -/
def encodings : List Encoding := [.utf8, .utf16, .latin1, .cp1251]

/-- A file as the resolver sees it: for each candidate encoding, either the
lines `path.open(encoding=e).readlines()` yields, or `none` when that open
or read raises (the source's bare `except` catches any exception). -/
def FileDecode : Type := Encoding → Option (List String)

/-- The candidate-trying loop of `get_log_lines`. -/
def get_log_lines_go (decode : FileDecode) : List Encoding → List String
  | [] => []
  | e :: rest =>
    match decode e with
    | some ls => ls
    | none => get_log_lines_go decode rest

/-- `get_log_lines` (source lines 144-152): return the lines from the first
encoding that succeeds; if every candidate fails, fall through to
`return []`. -/
def get_log_lines (decode : FileDecode) : List String :=
  get_log_lines_go decode encodings

/-- The error the specification's Encoding Resolver contract names. -/
inductive UnreadableFileError where
  | mk
deriving DecidableEq

/-- Modelled from the spec: the Encoding Resolver contract of §4.1, which
the source's `get_log_lines` is compared against — "return the full set of
decoded lines from the first encoding that decodes without error. Fails
with `UnreadableFileError` only if every candidate encoding fails". -/
def get_log_lines_spec (decode : FileDecode) : Except UnreadableFileError (List String) :=
  match encodings.findSome? decode with
  | some ls => .ok ls
  | none => .error .mk

/-! ## Observation helpers used by the theorems -/

/-- Whether an event is an HTTP POST. -/
def Ev.isPost : Ev → Bool
  | .httpPost _ => true
  | _ => false

/-- Whether an event writes to standard output. -/
def Ev.isStdout : Ev → Bool
  | .stdoutJson _ => true
  | .stdoutLine _ => true
  | _ => false

/-- The user-message payload of every posted request, in posting order: the
chunk texts actually sent to the backend. -/
def postedPrompts (evs : List Ev) : List String :=
  evs.filterMap (fun e => match e with
    | .httpPost r => some ((r.messages.getD 1 ("", "")).2)
    | _ => none)

/-- Every HTTP POST in the trace targets the LM Studio URL. -/
def postsUrlOk : Ev → Bool
  | .httpPost r => r.url == LMSTUDIO_URL
  | _ => true

/-- The contribution of one chunk to `final_results`: the decoded list on a
successful call, nothing on a transport error or a non-list decode. -/
def chunkContribution (backend : Backend) (model start_date end_date chunk : String) :
    List PyJson :=
  match (call_llm backend model chunk start_date end_date LLM_TIMEOUT).2 with
  | .ok (PyJson.jarr l) => l
  | _ => []

/-- Linearisation of a `DateTime` for comparisons (months and days are
padded past their ranges, so the order is lexicographic on the fields). -/
def dtKey (t : DateTime) : Nat :=
  ((((t.year * 13 + t.month) * 32 + t.day) * 24 + t.hour) * 60 + t.minute) * 60 + t.second

/-- The claim's TimeWindow membership, inclusive at both ends (the source
itself never compares timestamps; this formalises the window of the claim
being checked). -/
def dtInWindow (wstart wend t : DateTime) : Bool :=
  dtKey wstart ≤ dtKey t && dtKey t ≤ dtKey wend

/-! ## Lemmas about the backend call and the chunk loop -/

theorem call_llm_fst (backend : Backend) (model prompt start_date end_date : String)
    (timeout : Nat) :
    ∃ tail : List Ev,
      (call_llm backend model prompt start_date end_date timeout).1
        = Ev.httpPost (call_llm_request model prompt start_date end_date timeout) :: tail ∧
      (∀ e ∈ tail, ∃ s, e = Ev.stderrLine s) := by
  unfold call_llm
  split
  · split
    · exact ⟨[.stderrLine _], rfl, by
        intro e he
        simp only [List.mem_singleton] at he
        exact ⟨_, he⟩⟩
    · exact ⟨[], rfl, by simp⟩
  · split
    · exact ⟨[.stderrLine _], rfl, by
        intro e he
        simp only [List.mem_singleton] at he
        exact ⟨_, he⟩⟩
    · exact ⟨[], rfl, by simp⟩

theorem chunk_loop_results (backend : Backend) (model start_date end_date : String) :
    ∀ (chunks : List String) (i total : Nat),
      (chunk_loop backend model start_date end_date chunks i total).2
        = (chunks.map (chunkContribution backend model start_date end_date)).flatten
  | [], _, _ => by simp [chunk_loop]
  | chunk :: rest, i, total => by
    have ih := chunk_loop_results backend model start_date end_date rest (i + 1) total
    unfold chunk_loop
    cases hc : call_llm backend model chunk start_date end_date LLM_TIMEOUT with
    | mk cevs r =>
      cases r with
      | ok v =>
        simp only [List.map_cons, List.flatten_cons, ih, chunkContribution, hc]
        cases v with
        | jarr l => cases l <;> simp
        | jnull => simp
        | jbool b => simp
        | jint n => simp
        | jfloat x => simp
        | jstr s => simp
        | jobj p => simp
      | error e =>
        simp only [List.map_cons, List.flatten_cons, ih, chunkContribution, hc]
        rfl

theorem postedPrompts_stderr_nil {tail : List Ev}
    (h : ∀ e ∈ tail, ∃ s, e = Ev.stderrLine s) : postedPrompts tail = [] := by
  induction tail with
  | nil => rfl
  | cons e rest ih =>
    obtain ⟨s, rfl⟩ := h e (by simp)
    simp only [postedPrompts, List.filterMap_cons]
    exact ih (fun e he => h e (by simp [he]))

theorem call_llm_prompts (backend : Backend) (model prompt start_date end_date : String)
    (timeout : Nat) :
    postedPrompts (call_llm backend model prompt start_date end_date timeout).1 = [prompt] := by
  obtain ⟨tail, heq, hs⟩ := call_llm_fst backend model prompt start_date end_date timeout
  rw [heq]
  simp only [postedPrompts, List.filterMap_cons]
  have h0 := postedPrompts_stderr_nil hs
  simp only [postedPrompts] at h0
  rw [h0]
  rfl

theorem chunk_loop_prompts (backend : Backend) (model start_date end_date : String) :
    ∀ (chunks : List String) (i total : Nat),
      postedPrompts (chunk_loop backend model start_date end_date chunks i total).1 = chunks
  | [], _, _ => by simp [chunk_loop, postedPrompts]
  | chunk :: rest, i, total => by
    have ih := chunk_loop_prompts backend model start_date end_date rest (i + 1) total
    have hc := call_llm_prompts backend model chunk start_date end_date LLM_TIMEOUT
    unfold chunk_loop
    cases hcall : call_llm backend model chunk start_date end_date LLM_TIMEOUT with
    | mk cevs r =>
      rw [hcall] at hc
      cases r with
      | ok v =>
        simp only [postedPrompts, List.filterMap_cons, List.filterMap_append] at hc ih ⊢
        rw [hc, ih]
        rfl
      | error e =>
        simp only [postedPrompts, List.filterMap_cons, List.filterMap_append] at hc ih ⊢
        rw [hc, ih]
        rfl

theorem call_llm_urlok (backend : Backend) (model prompt start_date end_date : String)
    (timeout : Nat) :
    (call_llm backend model prompt start_date end_date timeout).1.all postsUrlOk = true := by
  obtain ⟨tail, heq, hs⟩ := call_llm_fst backend model prompt start_date end_date timeout
  rw [heq, List.all_cons]
  have h1 : postsUrlOk (Ev.httpPost (call_llm_request model prompt start_date end_date timeout))
      = true := by
    simp [postsUrlOk, call_llm_request]
  rw [h1, Bool.true_and, List.all_eq_true]
  intro e he
  obtain ⟨s, rfl⟩ := hs e he
  rfl

theorem chunk_loop_urlok (backend : Backend) (model start_date end_date : String) :
    ∀ (chunks : List String) (i total : Nat),
      (chunk_loop backend model start_date end_date chunks i total).1.all postsUrlOk = true
  | [], _, _ => by simp [chunk_loop]
  | chunk :: rest, i, total => by
    have ih := chunk_loop_urlok backend model start_date end_date rest (i + 1) total
    have hc := call_llm_urlok backend model chunk start_date end_date LLM_TIMEOUT
    unfold chunk_loop
    cases hcall : call_llm backend model chunk start_date end_date LLM_TIMEOUT with
    | mk cevs r =>
      rw [hcall] at hc
      cases r with
      | ok v => simp_all [List.all_append, postsUrlOk]
      | error e => simp_all [List.all_append, postsUrlOk]

theorem process_file_urlok (backend : Backend) (model start_date end_date path : String)
    (lines : List String) :
    (process_file backend model start_date end_date path lines).all postsUrlOk = true := by
  unfold process_file
  simp only [List.all_cons, List.all_append, List.all_nil,
    chunk_loop_urlok backend model start_date end_date]
  simp [postsUrlOk]

theorem main_run_urlok (backend : Backend) (args : Args) (files : List (String × List String)) :
    (main_run backend args files).all postsUrlOk = true := by
  unfold main_run
  induction files with
  | nil => rfl
  | cons f rest ih =>
    simp only [List.map_cons, List.flatten_cons, List.all_append, ih, Bool.and_true]
    exact process_file_urlok backend args.model args.start args.end_ f.1 f.2

theorem chunk_loop_logs_error (backend : Backend) (model start_date end_date : String) :
    ∀ (chunks : List String) (i0 total k : Nat) (hk : k < chunks.length) (e : TransportErr),
      (call_llm backend model (chunks.get ⟨k, hk⟩) start_date end_date LLM_TIMEOUT).2
          = .error e →
      Ev.stderrLine ("Error calling LLM for chunk " ++ toString (i0 + k + 1) ++ ": " ++ e.text)
        ∈ (chunk_loop backend model start_date end_date chunks i0 total).1
  | [], _, _, k, hk, _ => by simp at hk
  | chunk :: rest, i0, total, 0, hk, e => by
    intro herr
    rw [show (chunk :: rest).get ⟨0, hk⟩ = chunk from rfl] at herr
    unfold chunk_loop
    cases hcall : call_llm backend model chunk start_date end_date LLM_TIMEOUT with
    | mk cevs r =>
      rw [hcall] at herr
      simp only at herr
      cases r with
      | ok v => exact absurd herr (by simp)
      | error e2 =>
        cases herr
        have h2 : i0 + 0 + 1 = i0 + 1 := by omega
        rw [h2]
        simp
  | chunk :: rest, i0, total, k + 1, hk, e => by
    intro herr
    have ih := chunk_loop_logs_error backend model start_date end_date rest (i0 + 1) total k
      (by simpa using Nat.lt_of_succ_lt_succ hk) e (by simpa using herr)
    have harith : i0 + 1 + k + 1 = i0 + (k + 1) + 1 := by omega
    rw [harith] at ih
    unfold chunk_loop
    cases hcall : call_llm backend model chunk start_date end_date LLM_TIMEOUT with
    | mk cevs r =>
      cases r with
      | ok v => simp [ih]
      | error e2 => simp [ih]

theorem get_log_lines_go_eq (decode : FileDecode) :
    ∀ (es : List Encoding),
      get_log_lines_go decode es = ((es.findSome? decode).getD [])
  | [] => rfl
  | e :: rest => by
    unfold get_log_lines_go
    cases hd : decode e with
    | some ls => simp [List.findSome?_cons, hd]
    | none => simp [List.findSome?_cons, hd, get_log_lines_go_eq decode rest]

theorem process_file_prompts (backend : Backend) (model start_date end_date path : String)
    (lines : List String) :
    postedPrompts (process_file backend model start_date end_date path lines)
      = create_chunks lines := by
  unfold process_file
  simp only [postedPrompts, List.filterMap_cons, List.filterMap_append]
  have h := chunk_loop_prompts backend model start_date end_date (create_chunks lines) 0
    (create_chunks lines).length
  simp only [postedPrompts] at h
  rw [h]
  simp

/-! ## The claims -/

/-- C1 (counterexample): the claim says that for the log lines
`2025-01-01 10:00:00 FOUND Trojan.Generic` and `2025-01-01 13:00:00 FOUND Worm.X`
with window 09:00:00-11:00:00 exactly one line (the Trojan line) is retained
and passed onward to chunking.  On the code this is false: `main` applies no
timestamp filter at all — the timestamp pipeline classifies the Worm.X line
as outside the window, yet both lines reach the chunker, and the single
chunk posted to the backend contains the Worm.X line. -/
theorem C1_counterexample :
    parse_timestamp_standard "2025-01-01 10:00:00 FOUND Trojan.Generic\n"
      = some ⟨2025, 1, 1, 10, 0, 0⟩ ∧
    parse_timestamp_standard "2025-01-01 13:00:00 FOUND Worm.X"
      = some ⟨2025, 1, 1, 13, 0, 0⟩ ∧
    dtInWindow ⟨2025, 1, 1, 9, 0, 0⟩ ⟨2025, 1, 1, 11, 0, 0⟩ ⟨2025, 1, 1, 10, 0, 0⟩ = true ∧
    dtInWindow ⟨2025, 1, 1, 9, 0, 0⟩ ⟨2025, 1, 1, 11, 0, 0⟩ ⟨2025, 1, 1, 13, 0, 0⟩ = false ∧
    (create_chunks_parts ["2025-01-01 10:00:00 FOUND Trojan.Generic\n",
        "2025-01-01 13:00:00 FOUND Worm.X"]).flatten
      = ["2025-01-01 10:00:00 FOUND Trojan.Generic\n",
         "2025-01-01 13:00:00 FOUND Worm.X"] ∧
    postedPrompts (process_file (fun _ => .error (.reqError "connection refused"))
        "qwen:8b" "2025-01-01 09:00:00" "2025-01-01 11:00:00" "scan.log"
        ["2025-01-01 10:00:00 FOUND Trojan.Generic\n",
         "2025-01-01 13:00:00 FOUND Worm.X"])
      = ["2025-01-01 10:00:00 FOUND Trojan.Generic\n\n2025-01-01 13:00:00 FOUND Worm.X"] ∧
    listContains "Worm.X".toList
      "2025-01-01 10:00:00 FOUND Trojan.Generic\n\n2025-01-01 13:00:00 FOUND Worm.X".toList
      = true :=
  ⟨rfl, rfl, rfl, rfl, rfl, rfl, rfl⟩

/-- C1 (amended): `main` performs no client-side timestamp filtering.  Every
line of the file reaches the chunker (the chunk parts flatten back to the
input lines), and the chunk texts posted to the backend are exactly
`create_chunks lines` — the time window travels only inside the prompt. -/
theorem C1_no_filtering_before_chunking (backend : Backend)
    (model start_date end_date path : String) (lines : List String) :
    postedPrompts (process_file backend model start_date end_date path lines)
      = create_chunks lines ∧
    (create_chunks_parts lines).flatten = lines :=
  ⟨process_file_prompts backend model start_date end_date path lines,
   create_chunks_parts_flatten lines⟩

/-- C2 (amended): `create_chunks` partitions its input exactly — the chunk
line-groups flatten back to the input sequence, and each produced chunk is
the `"\n".join` of its group.  For a chunk holding at least two lines the
line lengths sum to at most `MAX_CHARS_PER_CHUNK`, but the joined chunk
string may exceed the maximum by up to the number of inserted newline
separators (`len - 1`), because `current_length` does not count them.  A
single-line chunk may be arbitrarily long. -/
theorem C2_chunker_partition_and_size (lines : List String) :
    (create_chunks_parts lines).flatten = lines ∧
    create_chunks lines = (create_chunks_parts lines).map (pyJoin "\n") ∧
    ∀ c ∈ create_chunks_parts lines, 2 ≤ c.length →
      sumLen c ≤ MAX_CHARS_PER_CHUNK ∧
      (pyJoin "\n" c).length ≤ MAX_CHARS_PER_CHUNK + (c.length - 1) := by
  refine ⟨create_chunks_parts_flatten lines, rfl, ?_⟩
  intro c hc h2
  have hsum := create_chunks_parts_sum_bound lines c hc h2
  have hne : c ≠ [] := by
    intro h
    subst h
    simp at h2
  have hlen := pyJoin_newline_length c hne
  exact ⟨hsum, by omega⟩

/-- C2 (witness): the bounds evaluated on the two-line input
`["ab", "cd"]`, which forms a single two-line chunk. -/
theorem C2_witness :
    sumLen ["ab", "cd"] ≤ MAX_CHARS_PER_CHUNK ∧
    (pyJoin "\n" ["ab", "cd"]).length ≤ MAX_CHARS_PER_CHUNK + (["ab", "cd"].length - 1) :=
  (C2_chunker_partition_and_size ["ab", "cd"]).2.2 ["ab", "cd"] (by decide) (by decide)

/-- C2 (counterexample): two lines of 2500 characters each are packed into
one chunk whose joined length is 5001 > `MAX_CHARS_PER_CHUNK` = 5000 even
though neither line alone exceeds the maximum — the claim's size bound
("no chunk exceeds the maximum unless it is a single oversized line") is
false because the `"\n"` separators are not counted by `current_length`. -/
theorem C2_counterexample :
    create_chunks [String.mk (List.replicate 2500 'a'), String.mk (List.replicate 2500 'b')]
      = [String.mk (List.replicate 2500 'a') ++ "\n" ++ String.mk (List.replicate 2500 'b')] ∧
    (String.mk (List.replicate 2500 'a') ++ "\n" ++ String.mk (List.replicate 2500 'b')).length
      = 5001 ∧
    MAX_CHARS_PER_CHUNK < 5001 ∧
    (String.mk (List.replicate 2500 'a')).length ≤ MAX_CHARS_PER_CHUNK ∧
    (String.mk (List.replicate 2500 'b')).length ≤ MAX_CHARS_PER_CHUNK := by
  have ha : (String.mk (List.replicate 2500 'a')).length = 2500 := by
    rw [String.length_mk, List.length_replicate]
  have hb : (String.mk (List.replicate 2500 'b')).length = 2500 := by
    rw [String.length_mk, List.length_replicate]
  refine ⟨?_, ?_, by decide, by rw [ha]; decide, by rw [hb]; decide⟩
  · simp only [create_chunks, create_chunks_parts, ccGo, ha, hb, MAX_CHARS_PER_CHUNK]
    norm_num
    rfl
  · rw [String.length_append, String.length_append, ha, hb]
    rfl

/-- C3: each timestamp strategy is total in the sense of the claim — when it
returns a value at all, the value is a valid `datetime` (fields inside the
ranges the `datetime` constructor enforces) — and the Dr.Web strategy
returns `none`, not an error, on the unrecognized month name `Foo`. -/
theorem C3_strategies_total_and_valid :
    (∀ (line : String) (t : DateTime),
        (parse_timestamp_gdata_header line = some t ∨
         parse_timestamp_drweb line = some t ∨
         parse_timestamp_mpdetection line = some t ∨
         parse_timestamp_standard line = some t ∨
         parse_timestamp_db_dump line = some t) →
        t.valid = true) ∧
    parse_timestamp_drweb "2025-Foo-01 18:47:24.322968" = none := by
  refine ⟨?_, rfl⟩
  rintro line t (h | h | h | h | h)
  exacts [parse_timestamp_gdata_header_valid h, parse_timestamp_drweb_valid h,
    parse_timestamp_mpdetection_valid h, parse_timestamp_standard_valid h,
    parse_timestamp_db_dump_valid h]

/-- C3 (witness): the generic strategy parses a concrete line and the
resulting timestamp is valid. -/
theorem C3_witness : DateTime.valid ⟨2025, 7, 1, 17, 20, 40⟩ = true :=
  C3_strategies_total_and_valid.1 "2025-07-01 17:20:40 scan started" ⟨2025, 7, 1, 17, 20, 40⟩
    (Or.inr (Or.inr (Or.inr (Or.inl rfl))))

/-- C4: when every decoding strategy fails — the raw text is not JSON, the
think-stripped text is not JSON, and any regex-extracted span is not JSON —
`parse_llm_response` returns the empty array together with the diagnostic
warning (and, being a total function, never raises). -/
theorem C4_degrade_to_empty (t : String)
    (h1 : json_loads t = none)
    (h2 : json_loads (String.mk (pyStrip (subThink t.toList))) = none)
    (h3 : ∀ g, searchJsonArr (subThink t.toList) = some g → json_loads (String.mk g) = none) :
    parse_llm_response t = (PyJson.jarr [], some (llmWarning t)) := by
  unfold parse_llm_response
  simp only [h1, h2]
  cases hs : searchJsonArr (subThink t.toList) with
  | none => rfl
  | some g => simp only [hs, h3 g hs]

/-- C4 (witness): a concrete all-strategies-fail input. -/
theorem C4_witness :
    parse_llm_response "The scan cannot be parsed."
      = (PyJson.jarr [], some (llmWarning "The scan cannot be parsed.")) :=
  C4_degrade_to_empty "The scan cannot be parsed." rfl rfl (fun _ hg => nomatch hg)

/-- C5 (amended): well-formed JSON array text decodes to the array unchanged
(with no warning), and the concrete prose-wrapped backend response of the
spec's scenario 3 still decodes to the one-element array with signature `X`.
The recovery-under-wrapping holds for this scenario because the extraction
regex requires an object-array shape `[{...}]`; it is not universal (see the
counterexample). -/
theorem C5_round_trip :
    (∀ (t : String) (a : List PyJson), json_loads t = some (PyJson.jarr a) →
        parse_llm_response t = (PyJson.jarr a, none)) ∧
    parse_llm_response
        "Here you go: [\x7b\"signature\":\"X\",\"timestamp\":\"2025-01-01 10:00:00\"\x7d] hope that helps!"
      = (PyJson.jarr [PyJson.jobj [("signature", PyJson.jstr "X"),
          ("timestamp", PyJson.jstr "2025-01-01 10:00:00")]], none) := by
  constructor
  · intro t a h
    unfold parse_llm_response
    simp only [h]
  · rfl

/-- C5 (witness): the round-trip branch applied to the concrete array text
`[]`. -/
theorem C5_witness :
    parse_llm_response "[]" = (PyJson.jarr [], none) :=
  C5_round_trip.1 "[]" [] rfl

/-- C5 (counterexample): the claim's universal wrapped-recovery fails — the
well-formed array `[1]` wrapped in a reasoning-tag block plus leading and
trailing prose decodes to the empty array, not to `[1]`, because the
extraction regex `\[\s*\{.*?\}\s*\]` only matches arrays whose first element
is an object. -/
theorem C5_counterexample :
    json_loads "[1]" = some (PyJson.jarr [PyJson.jint 1]) ∧
    (parse_llm_response "Here you go: <think>some reasoning</think> [1] hope that helps!").1
      = PyJson.jarr [] ∧
    PyJson.jarr [] ≠ PyJson.jarr [PyJson.jint 1] := by
  refine ⟨rfl, rfl, ?_⟩
  intro h
  injection h with h2
  exact List.noConfusion h2

/-- C6 (amended): the resolver returns the decoded lines of the first
candidate encoding that succeeds, in the order UTF-8, UTF-16, Latin-1,
cp1251 — and when every candidate fails it returns the empty line list
(falling through to `return []`) rather than raising any error. -/
theorem C6_encoding_resolver (decode : FileDecode) :
    get_log_lines decode = (encodings.findSome? decode).getD [] :=
  get_log_lines_go_eq decode encodings

/-- C6 (counterexample): on a file whose every candidate decode fails the
source returns `[]` (silently treating the file as empty) while the claimed
contract demands an `UnreadableFileError`; the two disagree at this input. -/
theorem C6_counterexample :
    get_log_lines (fun _ => none) = [] ∧
    get_log_lines_spec (fun _ => none) = Except.error UnreadableFileError.mk ∧
    Except.ok (get_log_lines (fun _ => none)) ≠ get_log_lines_spec (fun _ => none) := by
  refine ⟨rfl, rfl, ?_⟩
  intro h
  exact nomatch h

/-- C7: the claim says standard output carries only the final JSON array.
In the code, line 251 `print(f"Found: ... records")` lacks
`file=sys.stderr`, so a run over one (empty) file writes two lines to
standard output: the JSON dump and the `Found: 0 records` summary — the
summary line breaks the machine-readable stdout contract the spec calls
load-bearing, so this is a slip in the code. -/
theorem C7_stdout_not_only_json :
    (main_run (fun _ => .error (.reqError "connection refused"))
        ⟨"log.txt", "2025-01-01 09:00:00", "2025-01-01 11:00:00", "qwen:8b", "ollama"⟩
        [("log.txt", [])]).filter Ev.isStdout
      = [Ev.stdoutJson [], Ev.stdoutLine "Found: 0 records"] := rfl

/-- C8: transport-failure isolation of the chunk loop.  (a) the accumulated
results are exactly the concatenation of the per-chunk contributions, where
a chunk whose call fails contributes nothing (so there is no rollback of
earlier successes and no abort of later ones); (b) the prompts posted are
exactly the chunks, once each, in order (no retry, every chunk is tried);
(c) each failing chunk logs its `Error calling LLM for chunk i: ...` line to
the error stream. -/
theorem C8_transport_failure_isolation (backend : Backend)
    (model start_date end_date : String) (chunks : List String) (total : Nat) :
    (chunk_loop backend model start_date end_date chunks 0 total).2
      = (chunks.map (chunkContribution backend model start_date end_date)).flatten ∧
    postedPrompts (chunk_loop backend model start_date end_date chunks 0 total).1 = chunks ∧
    ∀ (k : Nat) (hk : k < chunks.length) (e : TransportErr),
      (call_llm backend model (chunks.get ⟨k, hk⟩) start_date end_date LLM_TIMEOUT).2
          = .error e →
      Ev.stderrLine ("Error calling LLM for chunk " ++ toString (k + 1) ++ ": " ++ e.text)
        ∈ (chunk_loop backend model start_date end_date chunks 0 total).1 := by
  refine ⟨chunk_loop_results backend model start_date end_date chunks 0 total,
    chunk_loop_prompts backend model start_date end_date chunks 0 total, ?_⟩
  intro k hk e he
  have h := chunk_loop_logs_error backend model start_date end_date chunks 0 total k hk e he
  simpa using h

/-- C8 (witness): a concrete one-chunk run against a backend that times out
logs the per-chunk error line. -/
theorem C8_witness :
    Ev.stderrLine ("Error calling LLM for chunk " ++ toString (1 : Nat) ++ ": " ++
        (TransportErr.reqError "timed out").text)
      ∈ (chunk_loop (fun _ => .error (.reqError "timed out")) "qwen:8b"
          "2025-01-01 09:00:00" "2025-01-01 11:00:00" ["one line of log"] 0 1).1 :=
  (C8_transport_failure_isolation (fun _ => .error (.reqError "timed out")) "qwen:8b"
      "2025-01-01 09:00:00" "2025-01-01 11:00:00" ["one line of log"] 1).2.2
    0 (by decide) (.reqError "timed out") rfl

/-- C10: provider noninterference — two runs differing only in the
`--provider` argument produce identical event traces (requests and output
included), and every request any run posts targets the LM Studio
chat-completions URL. -/
theorem C10_provider_noninterference :
    (∀ (backend : Backend) (args : Args) (p1 p2 : String)
        (files : List (String × List String)),
        main_run backend { args with provider := p1 } files
          = main_run backend { args with provider := p2 } files) ∧
    ∀ (backend : Backend) (args : Args) (files : List (String × List String)),
      (main_run backend args files).all postsUrlOk = true :=
  ⟨fun _ _ _ _ _ => rfl, main_run_urlok⟩

/-- C9 (amended): when the very first line handed to `create_chunks` is
longer than `MAX_CHARS_PER_CHUNK`, the overflow test fires while
`current_chunk` is still empty, so the first returned chunk is the empty
string, a chunk holding no input line. -/
theorem C9_oversized_first_line_empty_chunk (l : String) (rest : List String)
    (h : MAX_CHARS_PER_CHUNK < l.length) :
    (create_chunks_parts (l :: rest)).head? = some [] ∧
    (create_chunks (l :: rest)).head? = some "" := by
  have h0 : ccGo (l :: rest) [] 0 = [] :: ccGo rest [l] l.length := by
    conv_lhs => rw [ccGo]
    rw [if_pos (by omega)]
  constructor
  · rw [show create_chunks_parts (l :: rest) = ccGo (l :: rest) [] 0 from rfl, h0]
    rfl
  · rw [show create_chunks (l :: rest) = (ccGo (l :: rest) [] 0).map (pyJoin "\n") from rfl, h0]
    rfl

/-- C9 (witness): a concrete 5001-character first line produces an
empty-string first chunk. -/
theorem C9_witness :
    MAX_CHARS_PER_CHUNK < (String.mk (List.replicate 5001 'x')).length ∧
    (create_chunks [String.mk (List.replicate 5001 'x')]).head? = some "" := by
  have hx : (String.mk (List.replicate 5001 'x')).length = 5001 := by
    rw [String.length_mk, List.length_replicate]
  have hlt : MAX_CHARS_PER_CHUNK < (String.mk (List.replicate 5001 'x')).length := by
    rw [hx]
    decide
  exact ⟨hlt,
    (C9_oversized_first_line_empty_chunk (String.mk (List.replicate 5001 'x')) [] hlt).2⟩

/-- C9 (counterexample): the claim's parenthetical "or the first line after
a flush" is false — here the 6000-character second line is the first line
after a flush and exceeds the maximum, yet the output contains no
empty-string chunk, because a flush always leaves the triggering line in
`current_chunk`. -/
theorem C9_counterexample :
    create_chunks [String.mk (List.replicate 100 'p'), String.mk (List.replicate 6000 'q')]
      = [String.mk (List.replicate 100 'p'), String.mk (List.replicate 6000 'q')] ∧
    MAX_CHARS_PER_CHUNK < (String.mk (List.replicate 6000 'q')).length ∧
    "" ∉ create_chunks [String.mk (List.replicate 100 'p'),
        String.mk (List.replicate 6000 'q')] := by
  have hp : (String.mk (List.replicate 100 'p')).length = 100 := by
    rw [String.length_mk, List.length_replicate]
  have hq : (String.mk (List.replicate 6000 'q')).length = 6000 := by
    rw [String.length_mk, List.length_replicate]
  have h1 : create_chunks [String.mk (List.replicate 100 'p'),
        String.mk (List.replicate 6000 'q')]
      = [String.mk (List.replicate 100 'p'), String.mk (List.replicate 6000 'q')] := by
    simp only [create_chunks, create_chunks_parts, ccGo, hp, hq, MAX_CHARS_PER_CHUNK]
    norm_num [pyJoin]
  refine ⟨h1, by rw [hq]; decide, ?_⟩
  rw [h1]
  intro hmem
  rcases List.mem_cons.mp hmem with he | hmem2
  · have h2 : ("" : String).length = 100 := by rw [he, hp]
    simp at h2
  · rcases List.mem_cons.mp hmem2 with he | habs
    · have h2 : ("" : String).length = 6000 := by rw [he, hq]
      simp at h2
    · simp at habs
